import Mathlib

/-!
Shallow embedding of `src/pocwatchdog/task_scheduler.py` (the pocwatchdog
recurring-job scheduler) and proofs about its schedule compiler, job wrapper,
weekday resolver, weekly sub-loop and email dispatcher.

The embedding mirrors the Python source function by function:
  - `run` (lines 14-100): the credential check and the pre-loop setup are
    `run_setup`; the closure `wrapper` (lines 60-94) is `wrapper`;
  - `setup_schedule` (103-132), `setup_date_schedule` (135-174),
    `setup_week_schedule` (177-200): the schedule compiler, modelled as pure
    functions returning the list of armed entries (the `schedule` registry
    contents, in arming order) together with the exception, if any, that
    escaped before compilation finished;
  - `run_weekly_job` (203-221) and `schedule_weekday` (282-286): the weekly
    interval sub-loop, modelled over a finite observation trace of clock
    samples (one iteration of the Python `while True` loop per trace element);
  - `parse_weekday` (224-279): the weekday alias table;
  - `send_email` (315-367): attachment/image file opens happen before the
    `try` block guarding the SMTP session, so only transport errors are
    absorbed; the file system and the transport are oracles (`fs`, `smtpOk`).

Python dynamic typing is modelled by tagged unions (`STime`, `SKey`, `SVal`)
with an `other` constructor for every value shape that falls through to the
`else: raise ValueError(...)` branches; Python truthiness of the credential
arguments is `truthyStr` / `truthyList`.  The user job is modelled by its
outcome (`JobOutcome`), and `traceback.format_exc()` by an abstract formatter
`tbOf : Exc -> String`.
-/

namespace Pocwatchdog

/-- Exceptions observable in the embedded fragment: a user-job exception
(carrying its message), a failed `open(path)` inside `send_email`, and an
SMTP transport error. -/
inductive Exc where
  | job (msg : String)
  | fileOpen (path : String)
  | smtp
deriving DecidableEq, Repr

/-- Outcome of one invocation of the user job `job()`. -/
inductive JobOutcome where
  | ok
  | raises (msg : String)
deriving DecidableEq, Repr

/-- The distinct `raise ValueError(...)` sites of the configuration phase
(the spec calls all of them `ConfigError`). -/
inductive ConfigErr where
  | missingCreds
  | invalidScheduleTimeType
  | invalidKeyType (ty : String)
  | invalidValueType (ty : String)
  | invalidDayOfWeek (token : String)
deriving DecidableEq, Repr

/-- A value inside a mapping-shaped `schedule_time`: number (int/float),
time string, list of time strings, or any other Python value (tagged with
its type name, used only in the error message). -/
inductive SVal where
  | num (n : Int)
  | str (t : String)
  | list (ts : List String)
  | other (ty : String)
deriving DecidableEq, Repr

/-- A key of a mapping-shaped `schedule_time`: `int`, `str`, or other. -/
inductive SKey where
  | intKey (d : Int)
  | strKey (s : String)
  | otherKey (ty : String)
deriving DecidableEq, Repr

/-- The top-level `schedule_time` argument of `run`.  A Python dict is
modelled as its key/value pairs in insertion (iteration) order. -/
inductive STime where
  | num (n : Int)
  | str (t : String)
  | list (ts : List String)
  | dict (kvs : List (SKey × SVal))
  | other (ty : String)
deriving DecidableEq, Repr

/-- The trigger of an armed `schedule` registry entry, as configured by the
`schedule.every()...` call that created it. -/
inductive Trigger where
  | everySeconds (n : Int)
  | dailyAt (t : String)
  | weeklyOn (day : String)
  | weekdayAt (day : String) (t : String)
deriving DecidableEq, Repr

/-- The callable installed by `.do(...)`: the plain `wrapper` closure, the
day-of-month gated closures of `setup_date_schedule` (`date_wrapper`, which
absorbs exceptions, versus `date_time_wrapper` / `date_time_list_wrapper`,
which do not), or `run_weekly_job` with its interval argument. -/
inductive Act where
  | plain
  | dateGatedAbsorb (day : Int)
  | dateGated (day : Int)
  | weeklySubloop (seconds : Int)
deriving DecidableEq, Repr

/-- One armed entry of the `schedule` registry: trigger, callable, and the
optional `.tag(str(day))` label. -/
structure Entry where
  trigger : Trigger
  action : Act
  tag : Option String
deriving DecidableEq, Repr

/-- One `send_email` call as observable by the notification gateway:
the subject and (formatted) body it was invoked with, and whether it came
from the failure branch of `wrapper`. -/
structure MailEvent where
  subject : String
  body : String
  isFailure : Bool
deriving DecidableEq, Repr

/-- Result of one invocation of the `wrapper` closure: the `send_email`
calls it made, in order, and the exception (if any) escaping to its caller. -/
structure WrapResult where
  events : List MailEvent
  raised : Option Exc
deriving DecidableEq, Repr

/-- The keyword arguments of `run` that configure notification behaviour.
`None` file-path arguments are modelled as the empty list. -/
structure Config where
  sender : Option String
  password : Option String
  recipients : Option (List String)
  smtp_ssl : Bool
  success_subject : String
  success_body : String
  success_file_path : List String
  success_img_path : List String
  failure_subject : String
  failure_body : String
  failure_file_path : List String
  failure_img_path : List String
  notify_success : Bool
  notify_failure : Bool
deriving DecidableEq, Repr

/-- The default keyword arguments of `run` (task_scheduler.py lines 14-32). -/
def defaultConfig : Config where
  sender := none
  password := none
  recipients := none
  smtp_ssl := true
  success_subject := "success"
  success_body := "success"
  success_file_path := []
  success_img_path := []
  failure_subject := "failure"
  failure_body := "task failure: error_message"
  failure_file_path := []
  failure_img_path := []
  notify_success := false
  notify_failure := false

/-- Python truthiness of an optional string argument (`not sender`):
falsy when absent or empty. -/
def truthyStr : Option String → Bool
  | none => false
  | some s => !s.isEmpty

/-- Python truthiness of an optional list argument (`not recipients`). -/
def truthyList : Option (List String) → Bool
  | none => false
  | some l => !l.isEmpty

/-- The literal placeholder token replaced in the failure body
(task_scheduler.py line 80). -/
def errTok : String := "error_message"

/-- First path in the list that the file-system oracle cannot open; `open`
raises on that path, so the scan stops there. -/
def firstBadPath (fs : String → Bool) : List String → Option String
  | [] => none
  | p :: rest => if fs p then firstBadPath fs rest else some p

/-- The SMTP connect/login/send/quit sequence (task_scheduler.py lines
358-365), abstracted by the transport oracle `smtpOk`. -/
def smtp_session (smtpOk : Bool) : Except Exc Unit :=
  if smtpOk then Except.ok () else Except.error Exc.smtp

/-- `send_email` (task_scheduler.py lines 315-367), restricted to its
raising/absorbing behaviour: attachment and inline-image paths are opened
(lines 329-352) BEFORE the `try` block, so an unopenable path raises out of
`send_email`; the SMTP session sits inside `try ... except ... print`, so a
transport failure is absorbed and `send_email` still returns normally. -/
def send_email (fs : String → Bool) (smtpOk : Bool)
    (file_paths img_paths : List String) : Except Exc Unit :=
  match firstBadPath fs file_paths with
  | some p => Except.error (Exc.fileOpen p)
  | none =>
    match firstBadPath fs img_paths with
    | some p => Except.error (Exc.fileOpen p)
    | none =>
      match smtp_session smtpOk with
      | Except.ok _ => Except.ok ()
      | Except.error _ => Except.ok ()

/-- The `except Exception as e:` block of `wrapper` (task_scheduler.py lines
76-94): if `notify_failure`, format the failure body by replacing every
occurrence of the literal token `error_message` with `traceback.format_exc()`
(modelled by `tbOf e`) and call `send_email`; then `raise e`.  When the
failure `send_email` call itself raises (an unopenable attachment), that new
exception propagates out of the `except` block and the `raise e` statement is
never reached. -/
def handle_exception (cfg : Config) (fs : String → Bool) (smtpOk : Bool)
    (tbOf : Exc → String) (e : Exc) (prior : List MailEvent) : WrapResult :=
  if cfg.notify_failure then
    let formatted := cfg.failure_body.replace errTok (tbOf e)
    let ev : MailEvent := ⟨cfg.failure_subject, formatted, true⟩
    match send_email fs smtpOk cfg.failure_file_path cfg.failure_img_path with
    | Except.ok _ => ⟨prior ++ [ev], some e⟩
    | Except.error f => ⟨prior ++ [ev], some f⟩
  else ⟨prior, some e⟩

/-- The `wrapper` closure defined inside `run` (task_scheduler.py lines
60-94).  `job()` is modelled by its outcome; the success-branch `send_email`
sits inside the `try`, so its exceptions are caught by the same `except`. -/
def wrapper (cfg : Config) (fs : String → Bool) (smtpOk : Bool)
    (tbOf : Exc → String) : JobOutcome → WrapResult
  | JobOutcome.raises m => handle_exception cfg fs smtpOk tbOf (Exc.job m) []
  | JobOutcome.ok =>
    if cfg.notify_success then
      let ev : MailEvent := ⟨cfg.success_subject, cfg.success_body, false⟩
      match send_email fs smtpOk cfg.success_file_path cfg.success_img_path with
      | Except.ok _ => ⟨[ev], none⟩
      | Except.error f => handle_exception cfg fs smtpOk tbOf f [ev]
    else ⟨[], none⟩

/-- The alias table of `parse_weekday` (task_scheduler.py lines 232-278),
verbatim and in source order. -/
def weekday_aliases : List (String × String) :=
  [("1", "monday"), ("mon", "monday"), ("monday", "monday"),
   ("星期一", "monday"), ("周一", "monday"), ("礼拜一", "monday"),
   ("2", "tuesday"), ("tue", "tuesday"), ("tuesday", "tuesday"),
   ("星期二", "tuesday"), ("周二", "tuesday"), ("礼拜二", "tuesday"),
   ("3", "wednesday"), ("wed", "wednesday"), ("wednesday", "wednesday"),
   ("星期三", "wednesday"), ("周三", "wednesday"), ("礼拜三", "wednesday"),
   ("4", "thursday"), ("thu", "thursday"), ("thursday", "thursday"),
   ("星期四", "thursday"), ("周四", "thursday"), ("礼拜四", "thursday"),
   ("5", "friday"), ("fri", "friday"), ("friday", "friday"),
   ("星期五", "friday"), ("周五", "friday"), ("礼拜五", "friday"),
   ("6", "saturday"), ("sat", "saturday"), ("saturday", "saturday"),
   ("星期六", "saturday"), ("周六", "saturday"), ("礼拜六", "saturday"),
   ("7", "sunday"), ("sun", "sunday"), ("sunday", "sunday"),
   ("星期日", "sunday"), ("星期天", "sunday"), ("周日", "sunday"),
   ("周天", "sunday"), ("礼拜日", "sunday"), ("礼拜天", "sunday")]

/-- A character Python's `str.strip()` removes: ASCII whitespace. -/
def isSpace (c : Char) : Bool :=
  c == ' ' || c == '\t' || c == '\n' || c == '\r' || c == '\x0b' || c == '\x0c'

/-- Python's `str.lower()` on one character, for the alphabet that can occur
here (ASCII letters and digits, CJK aliases): ASCII upper-case letters map
to lower case, everything else is unchanged. -/
def pyLowerChar (c : Char) : Char :=
  if 65 ≤ c.toNat && c.toNat ≤ 90 then Char.ofNat (c.toNat + 32) else c

/-- Python's `str.strip()` on a code-point list. -/
def py_strip (cs : List Char) : List Char :=
  ((cs.dropWhile isSpace).reverse.dropWhile isSpace).reverse

/-- `day_str.strip().lower()[:3]` (task_scheduler.py lines 231 and 279):
strip, lower-case, truncate to the first three code points. -/
def normalize_token (s : String) : List Char :=
  ((py_strip s.data).map pyLowerChar).take 3

/-- `parse_weekday` (task_scheduler.py lines 224-279): normalize the token
and look it up in the alias table (`days.get(day_str[:3], None)`). -/
def parse_weekday (day_str : String) : Option String :=
  let key := normalize_token day_str
  (weekday_aliases.find? (fun p => p.1.data == key)).map (fun p => p.2)

/-- The literal time string of the daily check armed for numeric
day-of-month values (task_scheduler.py line 154). -/
def zeroZero : String := "00:00"

/-- Result of one compilation phase: the entries armed in the global
`schedule` registry, in arming order, and the exception (if any) that
escaped.  Arming is a side effect in Python, so entries armed before an
exception remain in the registry. -/
abbrev CompileResult := List Entry × Option ConfigErr

/-- `setup_date_schedule` (task_scheduler.py lines 135-174).  Note that in
the numeric branch the interval `value` is never used by `date_wrapper`:
the armed entry is a daily 00:00 check whose gated body runs the job once
and absorbs exceptions. -/
def setup_date_schedule (day : Int) (value : SVal) : CompileResult :=
  match value with
  | SVal.num _ =>
    ([⟨Trigger.dailyAt zeroZero, Act.dateGatedAbsorb day, some (toString day)⟩], none)
  | SVal.str t =>
    ([⟨Trigger.dailyAt t, Act.dateGated day, some (toString day)⟩], none)
  | SVal.list ts =>
    (ts.map (fun t => ⟨Trigger.dailyAt t, Act.dateGated day, some (toString day)⟩), none)
  | SVal.other ty => ([], some (ConfigErr.invalidValueType ty))

/-- `setup_week_schedule` (task_scheduler.py lines 177-200): resolve the
weekday first (`if not day: raise ValueError(...)`), then dispatch on the
value shape. -/
def setup_week_schedule (day_str : String) (value : SVal) : CompileResult :=
  match parse_weekday day_str with
  | none => ([], some (ConfigErr.invalidDayOfWeek day_str))
  | some day =>
    match value with
    | SVal.num n => ([⟨Trigger.weeklyOn day, Act.weeklySubloop n, none⟩], none)
    | SVal.str t => ([⟨Trigger.weekdayAt day t, Act.plain, none⟩], none)
    | SVal.list ts =>
      (ts.map (fun t => ⟨Trigger.weekdayAt day t, Act.plain, none⟩), none)
    | SVal.other ty => ([], some (ConfigErr.invalidValueType ty))

/-- The per-item dispatch of the dict branch of `setup_schedule`
(task_scheduler.py lines 122-130): int keys go to `setup_date_schedule`,
str keys to `setup_week_schedule`, anything else raises. -/
def setup_key : SKey → SVal → CompileResult
  | SKey.intKey d, v => setup_date_schedule d v
  | SKey.strKey s, v => setup_week_schedule s v
  | SKey.otherKey ty, _ => ([], some (ConfigErr.invalidKeyType ty))

/-- The dict branch of `setup_schedule` (task_scheduler.py lines 120-130):
iterate the items in order; a raising item stops the iteration but keeps
the entries armed so far. -/
def setup_dict : List (SKey × SVal) → CompileResult
  | [] => ([], none)
  | (k, v) :: rest =>
    match setup_key k v with
    | (es, some e) => (es, some e)
    | (es, none) =>
      let r2 := setup_dict rest
      (es ++ r2.1, r2.2)

/-- `setup_schedule` (task_scheduler.py lines 103-132). -/
def setup_schedule : STime → CompileResult
  | STime.num n => ([⟨Trigger.everySeconds n, Act.plain, none⟩], none)
  | STime.str t => ([⟨Trigger.dailyAt t, Act.plain, none⟩], none)
  | STime.list ts => (ts.map (fun t => ⟨Trigger.dailyAt t, Act.plain, none⟩), none)
  | STime.dict kvs => setup_dict kvs
  | STime.other _ => ([], some ConfigErr.invalidScheduleTimeType)

/-- The credential precondition of `run` (task_scheduler.py lines 53-55):
`(notify_success or notify_failure) and (not sender or not password or not
recipients)`. -/
def credsMissing (cfg : Config) : Bool :=
  (cfg.notify_success || cfg.notify_failure) &&
    (!truthyStr cfg.sender || !truthyStr cfg.password || !truthyList cfg.recipients)

/-- The phase of `run` (task_scheduler.py lines 52-96) before the infinite
dispatch loop: the credential check (raising before anything is armed),
then `setup_schedule`. -/
def run_setup (cfg : Config) (schedule_time : STime) : CompileResult :=
  if credsMissing cfg then ([], some ConfigErr.missingCreds)
  else setup_schedule schedule_time

/-- One iteration of the `while True` loop of `run_weekly_job`: the clock
samples taken during that iteration.  `time` is the `time.time()` read;
`weekday` is the `datetime.now().weekday()` value at the exit test.  The two
clock reads of the exit test (`datetime.now().weekday()` and the one inside
`schedule_weekday()`) are adjacent calls in the same expression, microseconds
apart with no sleep between them, so they are modelled as the same sample. -/
structure WTick where
  time : Nat
  weekday : Nat
deriving DecidableEq, Repr

/-- `schedule_weekday` (task_scheduler.py lines 282-286): it simply returns
the CURRENT `datetime.now().weekday()` — it does not record the weekday at
which the sub-loop started. -/
def schedule_weekday (nowWeekday : Nat) : Nat := nowWeekday

/-- The `while True` loop of `run_weekly_job` (task_scheduler.py lines
211-221) over a finite observation trace, one iteration per trace element:
fire when `current_time >= next_run` (re-anchoring `next_run`), then test
`datetime.now().weekday() != schedule_weekday()` and break if it holds.
Returns the number of fires observed and whether the loop exited via the
break during the trace. -/
def run_weekly_loop (interval_seconds : Nat) (next_run : Nat) :
    List WTick → Nat × Bool
  | [] => (0, false)
  | t :: rest =>
    let fired : Nat := if next_run ≤ t.time then 1 else 0
    let nr : Nat := if next_run ≤ t.time then t.time + interval_seconds else next_run
    if t.weekday ≠ schedule_weekday t.weekday then
      (fired, true)
    else
      let r := run_weekly_loop interval_seconds nr rest
      (fired + r.1, r.2)

/-- `run_weekly_job` (task_scheduler.py lines 203-221): `next_run` starts at
the entry time (`time.time()`), then the loop runs. -/
def run_weekly_job (interval_seconds : Nat) (start : Nat) (ticks : List WTick) :
    Nat × Bool :=
  run_weekly_loop interval_seconds start ticks

/-- What one invocation of an armed entry callable does: how many times the
underlying user job gets invoked, and the exception (if any) escaping into
`schedule.run_pending()` and hence the dispatch loop. -/
structure ActionResult where
  jobCalls : Nat
  raised : Option Exc
deriving DecidableEq, Repr

/-- Execution of an armed callable when its trigger fires.  `today` is
`datetime.now().day` at fire time; `wticks` is the clock trace observed by a
weekly sub-loop.  `date_wrapper` (numeric day-of-month value) gates on
`today == day`, runs the wrapped job once and absorbs any exception
(`except Exception: pass`); `date_time_wrapper` / `date_time_list_wrapper`
gate the same way but let exceptions propagate; `run_weekly_job` absorbs
exceptions per fire inside its own loop. -/
def runAction (cfg : Config) (fs : String → Bool) (smtpOk : Bool)
    (tbOf : Exc → String) (jobOut : JobOutcome) (today : Int)
    (wticks : List WTick) : Act → ActionResult
  | Act.plain => ⟨1, (wrapper cfg fs smtpOk tbOf jobOut).raised⟩
  | Act.dateGatedAbsorb d =>
    if today = d then
      let _ := wrapper cfg fs smtpOk tbOf jobOut
      ⟨1, none⟩
    else ⟨0, none⟩
  | Act.dateGated d =>
    if today = d then ⟨1, (wrapper cfg fs smtpOk tbOf jobOut).raised⟩
    else ⟨0, none⟩
  | Act.weeklySubloop n =>
    ⟨(run_weekly_job n.toNat
        (match wticks with | [] => 0 | t :: _ => t.time) wticks).1, none⟩

/-- The environment of one tick of the outer dispatch loop: the job outcome
at this tick, the calendar day-of-month, the weekly-sub-loop clock trace and
the due predicate decided by the `schedule` library for this tick. -/
structure TickEnv where
  jobOut : JobOutcome
  today : Int
  wticks : List WTick
  due : Entry → Bool

/-- `schedule.run_pending()` at one tick: run the due entries in arming
order; returns the total number of user-job invocations. -/
def run_pending (cfg : Config) (fs : String → Bool) (smtpOk : Bool)
    (tbOf : Exc → String) (env : TickEnv) (entries : List Entry) : Nat :=
  ((entries.filter env.due).map
    (fun e => (runAction cfg fs smtpOk tbOf env.jobOut env.today env.wticks e.action).jobCalls)).sum

/-- The `while True: schedule.run_pending(); time.sleep(1)` loop of `run`
(task_scheduler.py lines 98-100), observed for finitely many ticks: the loop
body has no break or return, so the trace can be extended indefinitely.
Returns the total number of user-job invocations over the trace. -/
def dispatch_loop (cfg : Config) (fs : String → Bool) (smtpOk : Bool)
    (tbOf : Exc → String) (envs : List TickEnv) (entries : List Entry) : Nat :=
  (envs.map (fun env => run_pending cfg fs smtpOk tbOf env entries)).sum

/-- File-system oracle where every path opens. -/
def fsAll : String → Bool := fun _ => true

/-- File-system oracle where no path opens. -/
def fsNone : String → Bool := fun _ => false

/-- A concrete traceback formatter for witnesses. -/
def tbConst : Exc → String := fun _ => "Traceback (most recent call last)"

/-- `run` configuration with `notify_failure=True` and no credentials. -/
def cfgNF : Config := { defaultConfig with notify_failure := true }

/-- `run` configuration with `notify_failure=True`, credentials supplied and
an attachment path configured for the failure mail. -/
def cfgBadAttach : Config :=
  { defaultConfig with
      notify_failure := true
      sender := some ("a@qq.com")
      password := some ("pw")
      recipients := some [("b@qq.com")]
      failure_file_path := [("bad.png")] }

/-- C1: the exit test of the weekly sub-loop compares the current weekday
with `schedule_weekday()`, which itself re-reads the current weekday, so the
test is never true and the sub-loop never returns control to the outer
dispatch loop — on any trace, in particular on traces whose weekday differs
from the weekday at the moment the sub-loop started.  This refutes the
claimed terminal condition (exit when the calendar day has changed since the
sub-loop started): the code never consults the start day at all. -/
theorem run_weekly_job_never_exits (interval_seconds start : Nat)
    (ticks : List WTick) :
    (run_weekly_job interval_seconds start ticks).2 = false := by
  unfold run_weekly_job
  induction ticks generalizing start with
  | nil => rfl
  | cons t rest ih =>
    simp only [run_weekly_loop, schedule_weekday, ne_eq, not_true_eq_false,
      if_false, ite_false]
    exact ih _

/-- C2: for a day-of-month key with a numeric value, the compiled entry is a
daily 00:00 check whose gated body runs the job exactly once and absorbs
exceptions; the numeric interval `N` is discarded entirely — the compilation
result is the same for every `N`, so no fire-every-N-seconds sub-loop is
started, contradicting the code comment at task_scheduler.py line 144. -/
theorem date_interval_value_ignored (d n1 n2 : Int) (cfg : Config)
    (fs : String → Bool) (smtpOk : Bool) (tbOf : Exc → String)
    (jobOut : JobOutcome) (wt : List WTick) :
    setup_date_schedule d (SVal.num n1) = setup_date_schedule d (SVal.num n2) ∧
    setup_date_schedule d (SVal.num n1) =
      ([⟨Trigger.dailyAt zeroZero, Act.dateGatedAbsorb d, some (toString d)⟩], none) ∧
    runAction cfg fs smtpOk tbOf jobOut d wt (Act.dateGatedAbsorb d) = ⟨1, none⟩ := by
  refine ⟨rfl, rfl, ?_⟩
  simp [runAction]

/-- C3 counterexample: a day-of-month entry with a time-string value is
compiled to the ungated-exception callable `date_time_wrapper`; on the
matching day, a job exception escapes the gated layer into the dispatch
loop (here with notifications off, so the wrapper re-raises it). -/
theorem gated_time_value_exception_propagates :
    setup_date_schedule 15 (SVal.str ("09:00")) =
      ([⟨Trigger.dailyAt ("09:00"), Act.dateGated 15, some (toString (15 : Int))⟩], none) ∧
    (runAction defaultConfig fsAll true tbConst (JobOutcome.raises ("boom")) 15 []
      (Act.dateGated 15)).raised = some (Exc.job ("boom")) := by
  exact ⟨rfl, rfl⟩

/-- C3 amended: silent absorption holds only for the numeric (interval)
day-of-month shape (`date_wrapper` wraps the job in `try ... except: pass`);
for time-string and list values the gated callable propagates whatever the
wrapped job raises whenever the gate passes, and raises nothing when the
gate fails. -/
theorem date_gate_exception_policy (cfg : Config) (fs : String → Bool)
    (smtpOk : Bool) (tbOf : Exc → String) (jobOut : JobOutcome)
    (today d : Int) (wt : List WTick) (t : String) :
    setup_date_schedule d (SVal.str t) =
      ([⟨Trigger.dailyAt t, Act.dateGated d, some (toString d)⟩], none) ∧
    (runAction cfg fs smtpOk tbOf jobOut today wt (Act.dateGatedAbsorb d)).raised = none ∧
    (runAction cfg fs smtpOk tbOf jobOut today wt (Act.dateGated d)).raised =
      (if today = d then (wrapper cfg fs smtpOk tbOf jobOut).raised else none) := by
  refine ⟨rfl, ?_, ?_⟩ <;> by_cases h : today = d <;> simp [runAction, h]

/-- Helper: `setup_date_schedule` never raises the missing-credentials
error (its only raise site is the invalid-value-type branch). -/
theorem setup_date_schedule_no_missingCreds (d : Int) (v : SVal) :
    (setup_date_schedule d v).2 ≠ some ConfigErr.missingCreds := by
  cases v <;> simp [setup_date_schedule]

/-- Helper: `setup_week_schedule` never raises the missing-credentials
error. -/
theorem setup_week_schedule_no_missingCreds (s : String) (v : SVal) :
    (setup_week_schedule s v).2 ≠ some ConfigErr.missingCreds := by
  unfold setup_week_schedule
  cases parse_weekday s <;> cases v <;> simp

/-- Helper: the per-item dispatch never raises the missing-credentials
error. -/
theorem setup_key_no_missingCreds (k : SKey) (v : SVal) :
    (setup_key k v).2 ≠ some ConfigErr.missingCreds := by
  cases k with
  | intKey d => exact setup_date_schedule_no_missingCreds d v
  | strKey s => exact setup_week_schedule_no_missingCreds s v
  | otherKey ty => simp [setup_key]

/-- Helper: the dict branch of the compiler never raises the
missing-credentials error. -/
theorem setup_dict_no_missingCreds (kvs : List (SKey × SVal)) :
    (setup_dict kvs).2 ≠ some ConfigErr.missingCreds := by
  induction kvs with
  | nil => simp [setup_dict]
  | cons kv rest ih =>
    obtain ⟨k, v⟩ := kv
    have hk := setup_key_no_missingCreds k v
    rcases hq : setup_key k v with ⟨es, err⟩
    rw [hq] at hk
    cases err with
    | none => simpa [setup_dict, hq] using ih
    | some e => simpa [setup_dict, hq] using hk

/-- Helper: `setup_schedule` never raises the missing-credentials error —
that error has a single raise site, before any compilation. -/
theorem setup_schedule_no_missingCreds (st : STime) :
    (setup_schedule st).2 ≠ some ConfigErr.missingCreds := by
  cases st with
  | dict kvs => exact setup_dict_no_missingCreds kvs
  | num n => simp [setup_schedule]
  | str t => simp [setup_schedule]
  | list ts => simp [setup_schedule]
  | other ty => simp [setup_schedule]

/-- C4: if `notify_success` or `notify_failure` is requested and any of
`sender`, `password`, `recipients` is falsy, `run` raises the credential
`ValueError` before arming any entry (the result carries zero entries and
the error, and `setup_schedule` is never reached, hence no job executes);
with both notification flags false, `run` proceeds to `setup_schedule` and
can never raise the missing-credentials error. -/
theorem notification_config_checked_before_arming (cfg : Config) (st : STime) :
    ((cfg.notify_success = true ∨ cfg.notify_failure = true) →
      (truthyStr cfg.sender = false ∨ truthyStr cfg.password = false ∨
        truthyList cfg.recipients = false) →
      run_setup cfg st = ([], some ConfigErr.missingCreds)) ∧
    (cfg.notify_success = false → cfg.notify_failure = false →
      run_setup cfg st = setup_schedule st ∧
      (run_setup cfg st).2 ≠ some ConfigErr.missingCreds) := by
  constructor
  · intro h1 h2
    have hc : credsMissing cfg = true := by
      unfold credsMissing
      rcases h1 with h | h <;> rcases h2 with h2 | h2 | h2 <;> simp [h, h2]
    simp [run_setup, hc]
  · intro hs hf
    have hc : credsMissing cfg = false := by
      unfold credsMissing
      simp [hs, hf]
    refine ⟨by simp [run_setup, hc], ?_⟩
    simpa [run_setup, hc] using setup_schedule_no_missingCreds st

/-- C4 witness: with `notify_failure=True` and no credentials the setup
phase stops with the credential error and zero armed entries; with both
flags off, the same spec proceeds to the compiler. -/
theorem notification_config_checked_before_arming_witness :
    run_setup cfgNF (STime.num 1) = ([], some ConfigErr.missingCreds) ∧
    run_setup defaultConfig (STime.num 1) = setup_schedule (STime.num 1) :=
  ⟨(notification_config_checked_before_arming cfgNF (STime.num 1)).1
      (Or.inr rfl) (Or.inl rfl),
   ((notification_config_checked_before_arming defaultConfig (STime.num 1)).2
      rfl rfl).1⟩

/-- C5: when `notify_failure` is set and the configured failure attachment
and image paths all open, a job exception makes the wrapper dispatch exactly
one failure notification, whose body is the failure-body template with every
occurrence of the literal token given by `errTok` replaced by the formatted
traceback of the job exception, and then re-raise the original exception. -/
theorem failure_notification_formats_and_reraises (cfg : Config)
    (fs : String → Bool) (smtpOk : Bool) (tbOf : Exc → String) (m : String)
    (hnf : cfg.notify_failure = true)
    (hf : firstBadPath fs cfg.failure_file_path = none)
    (hi : firstBadPath fs cfg.failure_img_path = none) :
    wrapper cfg fs smtpOk tbOf (JobOutcome.raises m) =
      ⟨[⟨cfg.failure_subject, cfg.failure_body.replace errTok (tbOf (Exc.job m)), true⟩],
        some (Exc.job m)⟩ := by
  unfold wrapper handle_exception send_email
  rw [hf, hi]
  cases smtpOk <;> simp [hnf, smtp_session]

/-- C5 witness: a concrete failing job with `notify_failure=True` and no
attachments configured. -/
theorem failure_notification_formats_and_reraises_witness :
    wrapper cfgNF fsAll true tbConst (JobOutcome.raises ("x")) =
      ⟨[⟨cfgNF.failure_subject,
          cfgNF.failure_body.replace errTok (tbConst (Exc.job ("x"))), true⟩],
        some (Exc.job ("x"))⟩ :=
  failure_notification_formats_and_reraises cfgNF fsAll true tbConst ("x")
    rfl rfl rfl

/-- C6 counterexample: with a failure attachment path that cannot be opened,
the `send_email` call inside the `except` block raises before `raise e` is
reached, so the exception escaping the wrapper is the file-open error, not
the original job exception — the dispatch failure masks the job error. -/
theorem attachment_failure_masks_job_error :
    (wrapper cfgBadAttach fsNone true tbConst (JobOutcome.raises ("x"))).raised =
      some (Exc.fileOpen ("bad.png")) ∧
    (wrapper cfgBadAttach fsNone true tbConst (JobOutcome.raises ("x"))).raised ≠
      some (Exc.job ("x")) := by
  exact ⟨rfl, by decide⟩

/-- C6 amended: an SMTP transport failure never masks the job error —
`send_email` absorbs it internally, so whenever the configured failure
attachment and image paths all open, the exception escaping the wrapper is
the original job exception, for every transport outcome; but a failure to
open a configured attachment inside `send_email` does propagate and replaces
the job exception. -/
theorem transport_failure_never_masks_job_error (cfg : Config)
    (fs : String → Bool) (smtpOk : Bool) (tbOf : Exc → String) (m : String)
    (hf : firstBadPath fs cfg.failure_file_path = none)
    (hi : firstBadPath fs cfg.failure_img_path = none) :
    (wrapper cfg fs smtpOk tbOf (JobOutcome.raises m)).raised = some (Exc.job m) := by
  unfold wrapper handle_exception send_email
  rw [hf, hi]
  cases hn : cfg.notify_failure <;> cases smtpOk <;> simp [smtp_session]

/-- C6 amended witness: a failing transport (`smtpOk = false`) with openable
paths still re-raises the original job exception. -/
theorem transport_failure_never_masks_job_error_witness :
    (wrapper cfgNF fsAll false tbConst (JobOutcome.raises ("x"))).raised =
      some (Exc.job ("x")) :=
  transport_failure_never_masks_job_error cfgNF fsAll false tbConst ("x") rfl rfl

/-- C7 counterexample: arming is a side effect, so when an unresolvable
weekday token follows a valid key in the same mapping, compiling fails with
the error naming the token but the entry for the earlier key is already
armed — the compile does not arm zero entries. -/
theorem bad_weekday_after_good_key_arms_entries :
    setup_schedule (STime.dict
      [(SKey.intKey 1, SVal.str ("09:00")), (SKey.strKey ("foo"), SVal.num 60)]) =
      ([⟨Trigger.dailyAt ("09:00"), Act.dateGated 1, some (toString (1 : Int))⟩],
       some (ConfigErr.invalidDayOfWeek ("foo"))) := by
  decide

/-- C7 amended: for a token the weekday resolver cannot resolve (it returns
`none`, not an exception), `setup_week_schedule` raises the configuration
error naming the token without arming anything, and a mapping whose first
item carries that token compiles to zero armed entries plus that error;
entries for keys processed before an offending key, however, stay armed. -/
theorem unknown_weekday_token_rejected (day_str : String) (v : SVal)
    (kvs : List (SKey × SVal)) (h : parse_weekday day_str = none) :
    setup_week_schedule day_str v = ([], some (ConfigErr.invalidDayOfWeek day_str)) ∧
    setup_schedule (STime.dict ((SKey.strKey day_str, v) :: kvs)) =
      ([], some (ConfigErr.invalidDayOfWeek day_str)) := by
  have hw : setup_week_schedule day_str v =
      ([], some (ConfigErr.invalidDayOfWeek day_str)) := by
    unfold setup_week_schedule
    rw [h]
  refine ⟨hw, ?_⟩
  simp [setup_schedule, setup_dict, setup_key, hw]

/-- C7 amended witness: the unrecognized token used as the sole mapping key
fails the compile, naming the token, with zero armed entries. -/
theorem unknown_weekday_token_rejected_witness :
    setup_week_schedule ("foo") (SVal.num 60) =
      ([], some (ConfigErr.invalidDayOfWeek ("foo"))) ∧
    setup_schedule (STime.dict [(SKey.strKey ("foo"), SVal.num 60)]) =
      ([], some (ConfigErr.invalidDayOfWeek ("foo"))) :=
  unknown_weekday_token_rejected ("foo") (SVal.num 60) [] (by decide)

/-- C8 counterexample: an empty list value under a day-of-month key passes
the `isinstance(value, list)` test, so compilation succeeds with zero armed
entries instead of failing with a configuration error. -/
theorem empty_list_value_accepted_without_error :
    setup_schedule (STime.dict [(SKey.intKey 5, SVal.list [])]) = ([], none) ∧
    setup_date_schedule 5 (SVal.list []) = ([], none) :=
  ⟨rfl, rfl⟩

/-- C8 amended: inside a mapping, a value that is not a number, a string or
a list fails compilation with the invalid-value-type error (in both the
date and the week sub-compilers), but a list value of any length — the empty
list included — is accepted; the empty list just arms zero entries. -/
theorem mapping_value_shape_validation (d : Int) (ty day w : String)
    (hw : parse_weekday day = some w) :
    setup_date_schedule d (SVal.other ty) =
      ([], some (ConfigErr.invalidValueType ty)) ∧
    setup_week_schedule day (SVal.other ty) =
      ([], some (ConfigErr.invalidValueType ty)) ∧
    setup_date_schedule d (SVal.list []) = ([], none) ∧
    setup_week_schedule day (SVal.list []) = ([], none) := by
  refine ⟨rfl, ?_, rfl, ?_⟩ <;> simp [setup_week_schedule, hw]

/-- C8 amended witness: a non-number/string/list value is rejected and the
empty list is accepted, under a date key and under a weekday key. -/
theorem mapping_value_shape_validation_witness :
    setup_date_schedule 5 (SVal.other ("NoneType")) =
      ([], some (ConfigErr.invalidValueType ("NoneType"))) ∧
    setup_week_schedule ("mon") (SVal.other ("NoneType")) =
      ([], some (ConfigErr.invalidValueType ("NoneType"))) ∧
    setup_date_schedule 5 (SVal.list []) = ([], none) ∧
    setup_week_schedule ("mon") (SVal.list []) = ([], none) :=
  mapping_value_shape_validation 5 ("NoneType") ("mon") ("monday") (by decide)

/-- C9: `send_email` opens attachment and inline-image files before its
`try` block, so any unopenable configured path makes it raise the file-open
error; when every path opens, it returns normally for every transport
outcome, because the SMTP session errors are caught and only printed. -/
theorem send_email_attachment_reads_unguarded (fs : String → Bool)
    (smtpOk : Bool) (fps ips : List String) (p : String) :
    (firstBadPath fs fps = some p →
      send_email fs smtpOk fps ips = Except.error (Exc.fileOpen p)) ∧
    (firstBadPath fs fps = none → firstBadPath fs ips = some p →
      send_email fs smtpOk fps ips = Except.error (Exc.fileOpen p)) ∧
    (firstBadPath fs fps = none → firstBadPath fs ips = none →
      send_email fs smtpOk fps ips = Except.ok ()) := by
  refine ⟨?_, ?_, ?_⟩
  · intro h
    unfold send_email
    rw [h]
  · intro h1 h2
    unfold send_email
    rw [h1, h2]
  · intro h1 h2
    unfold send_email
    rw [h1, h2]
    cases smtpOk <;> simp [smtp_session]

/-- C9 witness: an unopenable attachment path makes `send_email` raise, and
with the same failing transport but an openable path it returns normally. -/
theorem send_email_attachment_reads_unguarded_witness :
    send_email fsNone false [("a.txt")] [] = Except.error (Exc.fileOpen ("a.txt")) ∧
    send_email fsAll false [("a.txt")] [] = Except.ok () :=
  ⟨(send_email_attachment_reads_unguarded fsNone false [("a.txt")] [] ("a.txt")).1 rfl,
   (send_email_attachment_reads_unguarded fsAll false [("a.txt")] [] ("a.txt")).2.2 rfl rfl⟩

/-- C10: an empty list as the top-level schedule specification raises no
error — the credential check passes (notifications off), the list branch of
the compiler iterates zero elements, so zero entries are armed — and the
dispatch loop, whose body never breaks or returns, then runs any number of
ticks without a single job invocation. -/
theorem empty_spec_arms_nothing_and_idles (cfg : Config)
    (hs : cfg.notify_success = false) (hf : cfg.notify_failure = false) :
    run_setup cfg (STime.list []) = ([], none) ∧
    ∀ (fs : String → Bool) (smtpOk : Bool) (tbOf : Exc → String)
      (envs : List TickEnv),
      dispatch_loop cfg fs smtpOk tbOf envs [] = 0 := by
  have hc : credsMissing cfg = false := by
    unfold credsMissing
    simp [hs, hf]
  refine ⟨by simp [run_setup, hc, setup_schedule], ?_⟩
  intro fs smtpOk tbOf envs
  simp [dispatch_loop, run_pending]

/-- C10 witness: with the default configuration (notifications off) the
empty-list specification compiles to zero entries and no error. -/
theorem empty_spec_arms_nothing_and_idles_witness :
    run_setup defaultConfig (STime.list []) = ([], none) :=
  (empty_spec_arms_nothing_and_idles defaultConfig rfl rfl).1

end Pocwatchdog
